import Mathlib

/-!
Verification development for the WebXR interaction core
(`src/utils/InteractionManager.ts`, `src/components/InteractiveButton.ts`,
`src/components/ThreeSceneManager.ts`, `VRControls`).

The TypeScript source is shallowly embedded below:
 - per-object widget state is the InteractiveButton machine
   (`handleStateChange`, the 100 ms selected-revert `setTimeout` body,
   `updateButtonState`);
 - the per-tick arbiter is `InteractionManager.update` /
   `updateObjectStates` / `raycast`;
 - the debounce guard is the module-level `debounce` helper;
 - the controller lifecycle is the pair of `sessionstart` listeners
   (the InteractionManager visibility listener registered first, the
   ThreeSceneManager controller-count gate registered second) together
   with `VRControls.setupControllers` / `getControllerCount`.

Colors are hex numbers modelled as `Nat`; opacities and ray distances are
modelled as `ℚ` (the source uses JS numbers; no float-specific behaviour
is relied on by any claim).
-/

namespace WebXR

/-- The per-object interaction states tracked in `__currentState`:
`idle`, `hovered`, `selected`, plus the externally forced `active`. -/
inductive BState
  | idle
  | hovered
  | selected
  | active
deriving DecidableEq, Repr

/-- The state strings the InteractionManager dispatches through
`obj.setState` in `updateObjectStates`: only `"idle"`, `"hovered"`
and `"selected"` are ever sent. -/
inductive Dispatch
  | idle
  | hovered
  | selected
deriving DecidableEq, Repr

/-- The visual attributes a `block.set(...)` call touches for a button:
background color (hex), background opacity, font color (hex). -/
structure BlockAttrs where
  backgroundColor : Nat
  backgroundOpacity : ℚ
  fontColor : Nat
deriving DecidableEq, Repr

/-- `idleStateAttributes` of `InteractiveButton` with the default options
(idleColor 0x663336, idleOpacity 0.3, textColor 0xffffff). -/
def idleStateAttributes : BlockAttrs :=
  { backgroundColor := 0x663336, backgroundOpacity := 3/10, fontColor := 0xffffff }

/-- `hoveredStateAttributes` of `InteractiveButton` with the default options
(hoveredColor 0x9aa999, hoveredOpacity 1, textColor 0xffffff). -/
def hoveredStateAttributes : BlockAttrs :=
  { backgroundColor := 0x9aa999, backgroundOpacity := 1, fontColor := 0xffffff }

/-- `selectedStateAttributes` of `InteractiveButton` with the default options
(selectedColor 0x27f53c, selectedOpacity 1, textColor 0xffffff). -/
def selectedStateAttributes : BlockAttrs :=
  { backgroundColor := 0x27f53c, backgroundOpacity := 1, fontColor := 0xffffff }

/-- State of one `InteractiveButton`: its `__currentState`, the block's
current visual attributes, the number of times the bound callback has
fired, and the number of scheduled-but-unfired selected-revert timeouts. -/
structure ButtonState where
  currentState : BState
  attrs : BlockAttrs
  callbackCount : Nat
  pendingTimers : Nat
deriving DecidableEq, Repr

/-- A freshly constructed `InteractiveButton`: `__currentState = "idle"`,
idle visual attributes, no callback firings, no pending timers. -/
def initialButton : ButtonState :=
  { currentState := .idle, attrs := idleStateAttributes
    callbackCount := 0, pendingTimers := 0 }

/-- `InteractiveButton.handleStateChange`.  The source first returns
unchanged when `currentState === "active" && state === "idle"`, then
switches on the dispatched state: `"hovered"` applies the hovered
attributes and records `hovered`; `"selected"` applies the selected
attributes, records `selected`, invokes the callback and schedules a
100 ms revert `setTimeout`; the default branch (here: `"idle"`) applies
the idle attributes and records `idle` (its internal `!== "active"`
re-checks are redundant after the early return). -/
def handleStateChange (b : ButtonState) (state : Dispatch) : ButtonState :=
  if b.currentState = .active ∧ state = .idle then b
  else
    match state with
    | .hovered =>
        { b with attrs := hoveredStateAttributes, currentState := .hovered }
    | .selected =>
        { b with attrs := selectedStateAttributes, currentState := .selected
                 callbackCount := b.callbackCount + 1
                 pendingTimers := b.pendingTimers + 1 }
    | .idle =>
        { b with attrs := idleStateAttributes, currentState := .idle }

/-- The body of the `setTimeout(..., 100)` scheduled in the `"selected"`
branch of `handleStateChange`: it unconditionally applies the idle
attributes and resets `__currentState` to `"idle"` — the source performs
no check that the state is still the one the timer was scheduled for. -/
def selectedRevertTimer (b : ButtonState) : ButtonState :=
  { b with attrs := idleStateAttributes, currentState := .idle
           pendingTimers := b.pendingTimers - 1 }

/-- `InteractiveButton.updateButtonState`: the external (poll-driven)
update.  It sets the background to the selected color / hovered opacity
when `isActive` and to the idle color / idle opacity otherwise (the font
color is not part of this `set` call), and records `__currentState` as
`"active"` or `"idle"`. -/
def updateButtonState (b : ButtonState) (isActive : Bool) : ButtonState :=
  { b with
    attrs :=
      { backgroundColor := if isActive then 0x27f53c else 0x663336
        backgroundOpacity := if isActive then 1 else 3/10
        fontColor := b.attrs.fontColor }
    currentState := if isActive then .active else .idle }

/-- Decision helper: is a state `hovered` or `selected`. -/
def isHoveredOrSelected : BState → Bool
  | .hovered => true
  | .selected => true
  | _ => false

/-- State of one `debounce` closure: the `ready` flag and, when a
cooldown `setTimeout` is pending, its absolute expiry time. -/
structure DebounceState where
  ready : Bool
  expiry : Option ℚ
deriving DecidableEq, Repr

/-- A fresh `debounce` wrapper: `ready = true`, no pending timeout. -/
def debounceInit : DebounceState :=
  { ready := true, expiry := none }

/-- The single-threaded timer model: before code runs at time `now`, a
pending cooldown `setTimeout` whose expiry is `≤ now` has fired, setting
`ready = true`. -/
def debounceFire (s : DebounceState) (now : ℚ) : DebounceState :=
  match s.expiry with
  | some e => if e ≤ now then { ready := true, expiry := none } else s
  | none => s

/-- Invoking the wrapped function returned by `debounce(fn, cooldownMs)`
at time `now`: due timers fire first; then `if (!ready) return;` drops
the call, else `ready = false`, `fn(...)` runs synchronously and a
cooldown `setTimeout(() => ready = true, cooldownMs)` is scheduled.
The returned `Bool` is whether the underlying `fn` executed. -/
def debounceInvoke (cooldownMs : ℚ) (s : DebounceState) (now : ℚ) :
    DebounceState × Bool :=
  let s' := debounceFire s now
  if s'.ready then
    ({ ready := false, expiry := some (now + cooldownMs) }, true)
  else (s', false)

/-- One intersection record as returned by
`THREE.Raycaster.intersectObject(obj, true)`: the id of the intersected
descendant mesh and the ray distance.  The library returns these sorted
by ascending distance; that contract enters the theorems as a
`List.Sorted` hypothesis. -/
structure DescHit where
  meshId : Nat
  dist : ℚ
deriving DecidableEq, Repr

/-- One entry of the `objsToTest` registry: the registered top-level
object's identity (JS reference equality is modelled by a `Nat` id),
its `isUI` capability flag and its widget state (the InteractiveButton
machine, the transition handler of the widgets this repository
registers). -/
structure RObj where
  objId : Nat
  isUI : Bool
  button : ButtonState
deriving DecidableEq, Repr

/-- The arbitration result after `InteractionManager.raycast` has
overwritten `result.object` with the owning registered object: the
top-level object's id and the intersection distance. -/
structure Hit where
  objId : Nat
  dist : ℚ
deriving DecidableEq, Repr

/-- One step of the `reduce` in `InteractionManager.raycast`: if the
current object has no intersections (`!intersections[0]`) keep
`closest`; otherwise, if there is no `closest` yet or the first (nearest)
intersection is strictly closer, take it and overwrite its `object`
field with the top-level registered object; else keep `closest`.
`hitsOf o` is the intersection list `intersectObject(o, true)` returns
for the current ray. -/
def raycastStep (hitsOf : Nat → List DescHit) (closest : Option Hit)
    (obj : RObj) : Option Hit :=
  match hitsOf obj.objId with
  | [] => closest
  | h :: _ =>
    match closest with
    | none => some { objId := obj.objId, dist := h.dist }
    | some c =>
        if h.dist < c.dist then some { objId := obj.objId, dist := h.dist }
        else closest

/-- `InteractionManager.raycast`: `objsToTest.reduce(..., null)` over the
whole registry. -/
def raycast (objs : List RObj) (hitsOf : Nat → List DescHit) : Option Hit :=
  List.foldl (raycastStep hitsOf) none objs

/-- The state string `updateObjectStates` dispatches to one registry
entry: `none` when `!obj.isUI` (the handler is not called at all);
otherwise `"selected"`/`"hovered"` when the object is the arbitration
hit (depending on `selectState`), else `"idle"`. -/
def dispatchFor (intersect : Option Hit) (selectState : Bool) (o : RObj) :
    Option Dispatch :=
  if o.isUI = false then none
  else
    match intersect with
    | some h =>
        if o.objId = h.objId then
          some (if selectState then .selected else .hovered)
        else some .idle
    | none => some .idle

/-- The effect of one tick on one registry entry: apply the dispatched
state through `setState` (the InteractiveButton handler), or leave the
entry untouched when no dispatch happens. -/
def applyTick (intersect : Option Hit) (selectState : Bool) (o : RObj) :
    RObj :=
  match dispatchFor intersect selectState o with
  | none => o
  | some s => { o with button := handleStateChange o.button s }

/-- `InteractionManager.updateObjectStates`: the per-tick `forEach` over
the registry. -/
def updateObjectStates (objs : List RObj) (intersect : Option Hit)
    (selectState : Bool) : List RObj :=
  objs.map (applyTick intersect selectState)

/-- Whether a registry entry is a capability-flagged object currently in
the `hovered` or `selected` state. -/
def hsFlag (o : RObj) : Bool :=
  o.isUI && isHoveredOrSelected o.button.currentState

/-- The ray sources `InteractionManager.update` can build a ray from:
VR controller 0, VR controller 1, or the pointer/touch coordinates. -/
inductive RaySrc
  | ctrl0
  | ctrl1
  | mouse
deriving DecidableEq, Repr

/-- The inputs one call of `InteractionManager.update` reads: whether an
immersive session is presenting, whether the mouse coordinates are valid
(`!isNaN(mouse.x) && !isNaN(mouse.y)`; `NaN` is set initially and on
`touchend`), the engagement flag `selectState`, and the scene geometry:
for each ray source, the intersection list each registered object's
descendant geometry yields under that source's ray. -/
structure TickInput where
  isPresenting : Bool
  mouseValid : Bool
  selectState : Bool
  scene : RaySrc → Nat → List DescHit

/-- `InteractionManager.update`.  While presenting, the ray is taken from
controller 0 and raycast; only if that misses is controller 1's ray
raycast (sequential priority).  Otherwise, with valid mouse coordinates
the pointer ray is raycast; with invalid coordinates no raycast happens
at all.  The result always flows into `updateObjectStates`.  Returned:
the updated registry, the arbitration result, and the list of ray
sources that were actually raycast this tick (`setPointerAt`, which only
moves the reticle sprite, is not modelled). -/
def updateTick (inp : TickInput) (objs : List RObj) :
    List RObj × Option Hit × List RaySrc :=
  if inp.isPresenting then
    match raycast objs (inp.scene .ctrl0) with
    | some i =>
        (updateObjectStates objs (some i) inp.selectState, some i, [.ctrl0])
    | none =>
        (updateObjectStates objs (raycast objs (inp.scene .ctrl1))
          inp.selectState,
         raycast objs (inp.scene .ctrl1), [.ctrl0, .ctrl1])
  else if inp.mouseValid then
    (updateObjectStates objs (raycast objs (inp.scene .mouse))
      inp.selectState,
     raycast objs (inp.scene .mouse), [.mouse])
  else (updateObjectStates objs none inp.selectState, none, [])

/-- The XR renderer as `VRControls.setupControllers` consumes it:
`suppliesGroup i` is whether `renderer.xr.getController(i)` returns a
group (three.js creates these groups unconditionally, so it is `true`
for every index in practice), and `physicallyAttached` is the number of
controllers physically present — which `setupControllers` never reads. -/
structure Renderer where
  suppliesGroup : Nat → Bool
  physicallyAttached : Nat

/-- `VRControls.setupControllers`: `for (let i = 0; i <= 1; i++)` push
`renderer.xr.getController(i)` onto `controllers` unless it is falsy.
Returned: the list of pushed controller indices. -/
def setupControllers (r : Renderer) : List Nat :=
  (List.range 2).filter r.suppliesGroup

/-- `InteractionManager.getControllerCount`:
`this.vrControl.controllers.length`. -/
def getControllerCount (r : Renderer) : Nat :=
  (setupControllers r).length

/-- Visibility flags of the four controller visuals the
`InteractionManager` listeners toggle together (`controllerGrips[0]`,
`controllers[0]`, `controllerGrips[1]`, `controllers[1]`; ray and
reticle are children of the controller nodes). -/
structure ControllerVisuals where
  grip0 : Bool
  ctrl0 : Bool
  grip1 : Bool
  ctrl1 : Bool
deriving DecidableEq, Repr

/-- All four visuals visible. -/
def allVisible : ControllerVisuals :=
  { grip0 := true, ctrl0 := true, grip1 := true, ctrl1 := true }

/-- All four visuals hidden (the state `setupScene` establishes before
any session starts). -/
def allHidden : ControllerVisuals :=
  { grip0 := false, ctrl0 := false, grip1 := false, ctrl1 := false }

/-- The session-scoped state the two `sessionstart` listeners touch:
the visuals' visibility and whether `session.end()` has been called. -/
structure SessionState where
  visuals : ControllerVisuals
  endRequested : Bool
deriving DecidableEq, Repr

/-- The `sessionstart` listener `InteractionManager.setupScene` registers
(first, in the `InteractionManager` constructor): it sets all four
controller visuals visible. -/
def interactionSessionStartListener (s : SessionState) : SessionState :=
  { s with visuals := allVisible }

/-- The `sessionstart` listener `ThreeSceneManager.initScene` registers
(second, after constructing the `InteractionManager`): it reads
`getControllerCount()` and calls `session.end()` when the count is
below two. -/
def gateSessionStartListener (r : Renderer) (s : SessionState) :
    SessionState :=
  if getControllerCount r < 2 then { s with endRequested := true } else s

/-- Dispatching the `sessionstart` event: listeners run in registration
order — the visibility listener first, the gating listener second. -/
def sessionStartDispatch (r : Renderer) (s : SessionState) : SessionState :=
  gateSessionStartListener r (interactionSessionStartListener s)

/-- The `sessionend` listener: all four visuals are hidden again. -/
def sessionEndDispatch (s : SessionState) : SessionState :=
  { s with visuals := allHidden }

/-- A concrete registered interactive button (for witnesses). -/
def wButtonA : RObj := { objId := 1, isUI := true, button := initialButton }

/-- A second concrete registered interactive button (for witnesses). -/
def wButtonB : RObj := { objId := 2, isUI := true, button := initialButton }

/-- A concrete registered object without the `isUI` capability
(for witnesses). -/
def wPanel : RObj := { objId := 3, isUI := false, button := initialButton }

/-- A concrete three-entry registry (for witnesses). -/
def wRegistry : List RObj := [wButtonA, wButtonB, wPanel]

/-- Concrete overlap geometry (for witnesses): object 1 intersects the
ray at distances 2 and 3 (descendant meshes 11, 12), object 2 at
distance 1 (descendant mesh 21). -/
def wOverlapHits : Nat → List DescHit
  | 1 => [{ meshId := 11, dist := 2 }, { meshId := 12, dist := 3 }]
  | 2 => [{ meshId := 21, dist := 1 }]
  | _ => []

/-- Concrete immersive-tick geometry (for witnesses): controller 0's ray
hits object 1 at distance 5; controller 1's ray hits object 2 at the
smaller distance 1; the pointer ray hits nothing. -/
def wVRScene (src : RaySrc) (objId : Nat) : List DescHit :=
  match src, objId with
  | .ctrl0, 1 => [{ meshId := 11, dist := 5 }]
  | .ctrl1, 2 => [{ meshId := 21, dist := 1 }]
  | _, _ => []

/-- A concrete immersive tick input (for witnesses). -/
def wVRInput : TickInput :=
  { isPresenting := true, mouseValid := false, selectState := false
    scene := wVRScene }

/-- A concrete no-input tick (for witnesses): not presenting, mouse
coordinates `NaN` (pointer left / touch ended). -/
def wNoInput : TickInput :=
  { isPresenting := false, mouseValid := false, selectState := false
    scene := wVRScene }

/-- A renderer with only one physically attached controller; three.js
still supplies controller groups for every index (for the controller
lifecycle claims). -/
def oneControllerRenderer : Renderer :=
  { suppliesGroup := fun _ => true, physicallyAttached := 1 }

/-- A renderer with zero physically attached controllers, groups still
supplied for every index (for the controller lifecycle claims). -/
def zeroAttachedRenderer : Renderer :=
  { suppliesGroup := fun _ => true, physicallyAttached := 0 }

/-! ## Theorems -/

/-- Helper: `setupControllers` pushes exactly the two controller groups
whenever the renderer supplies groups for indices 0 and 1, so
`getControllerCount` returns 2 — independent of the number of
physically attached controllers. -/
theorem getControllerCount_eq_two (r : Renderer)
    (h0 : r.suppliesGroup 0 = true) (h1 : r.suppliesGroup 1 = true) :
    getControllerCount r = 2 := by
  have hr : List.range 2 = [0, 1] := rfl
  simp [getControllerCount, setupControllers, hr, List.filter_cons, h0, h1]

/-- C4: the debounce guard.  From a fresh wrapper, the first invocation
(at `t1`) executes the callback synchronously and opens the cooldown
window `[t1, t1 + cooldownMs)`; an invocation at `t2` inside the window
is dropped silently and leaves the guard state unchanged (so two
invocations within the window execute the underlying function exactly
once, with no queueing or trailing-edge replay); an invocation at `t3`
at or after the window's expiry executes the underlying function
again. -/
theorem debounce_guard_correct (cooldownMs t1 t2 t3 : ℚ)
    (h2 : t2 < t1 + cooldownMs) (h3 : t1 + cooldownMs ≤ t3) :
    (debounceInvoke cooldownMs debounceInit t1).2 = true ∧
    (debounceInvoke cooldownMs debounceInit t1).1 =
      { ready := false, expiry := some (t1 + cooldownMs) } ∧
    debounceInvoke cooldownMs
        { ready := false, expiry := some (t1 + cooldownMs) } t2 =
      ({ ready := false, expiry := some (t1 + cooldownMs) }, false) ∧
    (debounceInvoke cooldownMs
        { ready := false, expiry := some (t1 + cooldownMs) } t3).2 = true := by
  refine ⟨rfl, rfl, ?_, ?_⟩
  · simp [debounceInvoke, debounceFire, not_le.mpr h2]
  · simp [debounceInvoke, debounceFire, h3]

/-- Witness for C4 at `cooldownMs = 500`, invocations at times 0, 100
and 600. -/
theorem debounce_guard_correct_witness :
    (debounceInvoke 500 debounceInit 0).2 = true ∧
    (debounceInvoke 500 debounceInit 0).1 =
      { ready := false, expiry := some ((0 : ℚ) + 500) } ∧
    debounceInvoke 500
        { ready := false, expiry := some ((0 : ℚ) + 500) } 100 =
      ({ ready := false, expiry := some ((0 : ℚ) + 500) }, false) ∧
    (debounceInvoke 500
        { ready := false, expiry := some ((0 : ℚ) + 500) } 600).2 = true :=
  debounce_guard_correct 500 0 100 600 (by norm_num) (by norm_num)

/-- C2 (counterexample): one continuous engagement gesture re-triggers
the action.  A single registered button is the nearest hit on two
consecutive ticks (≈16 ms apart, before the 100 ms revert timer can
fire) with the engagement flag asserted throughout; `updateObjectStates`
dispatches `"selected"` on both ticks and `handleStateChange` invokes
the bound callback both times, so the callback count reaches 2 within
one gesture. -/
theorem selected_retrigger_counterexample :
    (updateObjectStates
        (updateObjectStates [{ objId := 1, isUI := true, button := initialButton }]
          (some { objId := 1, dist := 1 }) true)
        (some { objId := 1, dist := 1 }) true).map
      (fun o => o.button.callbackCount) = [2] := by
  decide

/-- C2 (amended): `selected` entry always schedules the settle-delay
revert, whose timer body unconditionally restores the idle attributes
and the `idle` state even if the engagement flag remains asserted
throughout; but each dispatch of `"selected"` (one per tick while the
object stays the engaged nearest hit) re-enters `selected` and invokes
the bound callback again, so one continuous gesture can re-trigger the
action tied to `selected` entry. -/
theorem selected_pulse_amended (b : ButtonState) :
    (selectedRevertTimer b).currentState = .idle ∧
    (selectedRevertTimer b).attrs = idleStateAttributes ∧
    (handleStateChange b .selected).currentState = .selected ∧
    (handleStateChange b .selected).callbackCount = b.callbackCount + 1 := by
  refine ⟨rfl, rfl, ?_, ?_⟩ <;> simp [handleStateChange]

/-- C6 (code bug evaluated): a button enters `selected` (scheduling the
100 ms revert timer); before the timer fires, the external poll calls
`updateButtonState(true)` forcing `active`; when the stale timer then
fires it unconditionally writes `idle`, stomping the newer `active`
state — the source has no state-version guard. -/
theorem stale_revert_timer_stomps_active :
    (updateButtonState (handleStateChange initialButton .selected) true).currentState
        = .active ∧
    (handleStateChange initialButton .selected).pendingTimers = 1 ∧
    (selectedRevertTimer
        (updateButtonState (handleStateChange initialButton .selected) true)).currentState
      = .idle := by
  exact ⟨rfl, rfl, rfl⟩

/-- C7 (counterexample): the external clear is not the only way out of
`active`.  A button forced `active` by `updateButtonState(true)` that
becomes the nearest hit is overwritten to `hovered` by the per-tick
dispatch, and on the next tick (no longer the nearest hit) reverts to
`idle` — with no `updateButtonState(false)` call involved. -/
theorem active_override_counterexample :
    (updateButtonState initialButton true).currentState = .active ∧
    (handleStateChange (updateButtonState initialButton true) .hovered).currentState
      = .hovered ∧
    (handleStateChange
        (handleStateChange (updateButtonState initialButton true) .hovered)
        .idle).currentState = .idle := by
  exact ⟨rfl, rfl, rfl⟩

/-- C7 (amended): an object in `active` is immune to the per-tick
automatic `idle` dispatch — `handleStateChange` returns it entirely
unchanged (state and visual attributes); the explicit external clear
`updateButtonState(false)` moves it to `idle`; but a tick in which the
object is the nearest hit overwrites `active` with `hovered`/`selected`,
so the external clear is not the only exit from `active`. -/
theorem active_override_amended (b : ButtonState)
    (hb : b.currentState = .active) :
    handleStateChange b .idle = b ∧
    (updateButtonState b false).currentState = .idle ∧
    (handleStateChange b .hovered).currentState = .hovered ∧
    (handleStateChange b .selected).currentState = .selected := by
  refine ⟨?_, rfl, ?_, ?_⟩
  · simp [handleStateChange, hb]
  · simp [handleStateChange]
  · simp [handleStateChange]

/-- Witness for C7 (amended) on a concretely forced-active button. -/
theorem active_override_amended_witness :
    handleStateChange (updateButtonState initialButton true) .idle
        = updateButtonState initialButton true ∧
    (updateButtonState (updateButtonState initialButton true) false).currentState
        = .idle ∧
    (handleStateChange (updateButtonState initialButton true) .hovered).currentState
        = .hovered ∧
    (handleStateChange (updateButtonState initialButton true) .selected).currentState
        = .selected :=
  active_override_amended (updateButtonState initialButton true) rfl

/-- C5 (counterexample): starting a session with one physically attached
controller neither ends the session nor keeps the visuals hidden: the
visibility listener (registered first) marks all four controller visuals
visible, and the gating listener then compares
`getControllerCount() = 2` (the count of constructed controller groups)
against 2, so `session.end()` is not called. -/
theorem controller_gating_counterexample :
    (sessionStartDispatch oneControllerRenderer
        { visuals := allHidden, endRequested := false }).visuals = allVisible ∧
    (sessionStartDispatch oneControllerRenderer
        { visuals := allHidden, endRequested := false }).endRequested = false := by
  exact ⟨rfl, rfl⟩

/-- C5 (amended): on every session start, the interaction manager's
listener unconditionally marks the controller visuals visible; the scene
manager's gate then reads the controller count — the number of
constructed controller groups, which is 2 whenever the renderer supplies
groups for indices 0 and 1, regardless of physical attachment — so the
fewer-than-two branch is not taken: the session is not ended and the
visuals stay visible. -/
theorem controller_gating_amended (r : Renderer) (s : SessionState)
    (h0 : r.suppliesGroup 0 = true) (h1 : r.suppliesGroup 1 = true) :
    sessionStartDispatch r s =
      { visuals := allVisible, endRequested := s.endRequested } := by
  simp [sessionStartDispatch, gateSessionStartListener,
    interactionSessionStartListener, getControllerCount_eq_two r h0 h1]

/-- Witness for C5 (amended) on the one-attached-controller renderer. -/
theorem controller_gating_amended_witness :
    sessionStartDispatch oneControllerRenderer
        { visuals := allHidden, endRequested := false } =
      { visuals := allVisible, endRequested := false } :=
  controller_gating_amended oneControllerRenderer
    { visuals := allHidden, endRequested := false } rfl rfl

/-- C10: `getControllerCount` returns the number of controller groups
created at construction — 2 whenever the renderer supplies groups for
indices 0 and 1 — and is independent of the number of physically
attached controllers; consequently the `cnt < 2` termination branch of
the session-start gate is never taken. -/
theorem controller_count_constant (r : Renderer)
    (h0 : r.suppliesGroup 0 = true) (h1 : r.suppliesGroup 1 = true) :
    getControllerCount r = 2 ∧
    (∀ n : Nat,
      getControllerCount
        { suppliesGroup := r.suppliesGroup, physicallyAttached := n } = 2) ∧
    ∀ s : SessionState,
      (sessionStartDispatch r s).endRequested = s.endRequested := by
  refine ⟨getControllerCount_eq_two r h0 h1,
    fun n => getControllerCount_eq_two _ h0 h1, fun s => ?_⟩
  simp [sessionStartDispatch, gateSessionStartListener,
    interactionSessionStartListener, getControllerCount_eq_two r h0 h1]

/-- C8: while an immersive session is presenting, the active ray comes
from the VR controllers, never from pointer/touch; controller 0's ray is
raycast first, and controller 1's ray is raycast only when controller
0's ray hit nothing — whenever controller 0 has any hit, that hit is the
tick's arbitration result regardless of what controller 1 would have hit
(sequential priority, never the nearest hit across both). -/
theorem dual_controller_priority (inp : TickInput) (objs : List RObj)
    (hp : inp.isPresenting = true) :
    (∀ i, raycast objs (inp.scene .ctrl0) = some i →
      (updateTick inp objs).2.1 = some i ∧
      (updateTick inp objs).2.2 = [.ctrl0]) ∧
    (raycast objs (inp.scene .ctrl0) = none →
      (updateTick inp objs).2.1 = raycast objs (inp.scene .ctrl1) ∧
      (updateTick inp objs).2.2 = [.ctrl0, .ctrl1]) ∧
    RaySrc.mouse ∉ (updateTick inp objs).2.2 := by
  cases h0 : raycast objs (inp.scene .ctrl0) with
  | none => simp [updateTick, hp, h0]
  | some i => simp [updateTick, hp, h0]

/-- Witness for C8: in the concrete immersive tick, controller 1's ray
has the strictly nearer hit (distance 1 versus 5), yet the arbitration
result is controller 0's hit and controller 1 is never raycast. -/
theorem dual_controller_priority_witness :
    raycast wRegistry (wVRInput.scene .ctrl0) = some { objId := 1, dist := 5 } ∧
    raycast wRegistry (wVRInput.scene .ctrl1) = some { objId := 2, dist := 1 } ∧
    (updateTick wVRInput wRegistry).2.1 = some { objId := 1, dist := 5 } ∧
    (updateTick wVRInput wRegistry).2.2 = [.ctrl0] := by
  have h := (dual_controller_priority wVRInput wRegistry rfl).1
    { objId := 1, dist := 5 } (by decide)
  exact ⟨by decide, by decide, h.1, h.2⟩

/-- C9: a tick with no active input (not presenting, and the mouse
coordinates invalidated because the pointer left the viewport or the
touch ended) performs no raycast at all — no ray source is hit-tested,
the arbitration result is `none`, the registry is still dispatched to —
and every registered capability-flagged object receives the `"idle"`
state. -/
theorem no_input_tick (inp : TickInput) (objs : List RObj)
    (hp : inp.isPresenting = false) (hm : inp.mouseValid = false) :
    (updateTick inp objs).2.2 = [] ∧
    (updateTick inp objs).2.1 = none ∧
    (updateTick inp objs).1 = updateObjectStates objs none inp.selectState ∧
    ∀ o ∈ objs, o.isUI = true →
      dispatchFor none inp.selectState o = some .idle := by
  refine ⟨by simp [updateTick, hp, hm], by simp [updateTick, hp, hm],
    by simp [updateTick, hp, hm], ?_⟩
  intro o _ ho
  simp [dispatchFor, ho]

/-- Witness for C9 on the concrete no-input tick and registry, with the
capability-flagged conclusion instantiated at the registered button. -/
theorem no_input_tick_witness :
    (updateTick wNoInput wRegistry).2.2 = [] ∧
    (updateTick wNoInput wRegistry).2.1 = none ∧
    (updateTick wNoInput wRegistry).1 =
      updateObjectStates wRegistry none wNoInput.selectState ∧
    dispatchFor none wNoInput.selectState wButtonA = some .idle := by
  obtain ⟨h1, h2, h3, h4⟩ := no_input_tick wNoInput wRegistry rfl rfl
  exact ⟨h1, h2, h3, h4 wButtonA (by simp [wRegistry]) rfl⟩

/-- Witness for C10 on a renderer with zero physically attached
controllers, instantiated at a five-controller attachment count and a
concrete fresh session. -/
theorem controller_count_constant_witness :
    getControllerCount zeroAttachedRenderer = 2 ∧
    getControllerCount
      { suppliesGroup := zeroAttachedRenderer.suppliesGroup
        physicallyAttached := 5 } = 2 ∧
    (sessionStartDispatch zeroAttachedRenderer
        { visuals := allHidden, endRequested := false }).endRequested
      = false := by
  obtain ⟨h1, h2, h3⟩ := controller_count_constant zeroAttachedRenderer rfl rfl
  exact ⟨h1, h2 5, h3 { visuals := allHidden, endRequested := false }⟩

/-- Helper: one `reduce` step yields `none` exactly when the accumulator
was `none` and the current object has no intersections. -/
theorem raycastStep_eq_none_iff (hitsOf : Nat → List DescHit)
    (acc : Option Hit) (o : RObj) :
    raycastStep hitsOf acc o = none ↔ acc = none ∧ hitsOf o.objId = [] := by
  cases hh : hitsOf o.objId with
  | nil => simp [raycastStep, hh]
  | cons h hs =>
    cases acc with
    | none => simp [raycastStep, hh]
    | some c => by_cases hlt : h.dist < c.dist <;> simp [raycastStep, hh, hlt]

/-- Helper: the `reduce` returns `none` exactly when it started from
`none` and no traversed object has any intersection. -/
theorem raycast_foldl_none_iff (hitsOf : Nat → List DescHit)
    (objs : List RObj) :
    ∀ acc : Option Hit,
      List.foldl (raycastStep hitsOf) acc objs = none ↔
        acc = none ∧ ∀ o ∈ objs, hitsOf o.objId = [] := by
  induction objs with
  | nil => intro acc; simp
  | cons o t ih =>
    intro acc
    rw [List.foldl_cons, ih, raycastStep_eq_none_iff]
    simp only [List.forall_mem_cons]
    tauto

/-- Helper: one step with an empty intersection list keeps the
accumulator. -/
theorem raycastStep_nil (hitsOf : Nat → List DescHit) (acc : Option Hit)
    (o : RObj) (hh : hitsOf o.objId = []) :
    raycastStep hitsOf acc o = acc := by
  simp [raycastStep, hh]

/-- Helper: one step from an empty accumulator takes the object's first
intersection and records the top-level object's id. -/
theorem raycastStep_cons_none (hitsOf : Nat → List DescHit) (o : RObj)
    (h : DescHit) (hs : List DescHit) (hh : hitsOf o.objId = h :: hs) :
    raycastStep hitsOf none o = some { objId := o.objId, dist := h.dist } := by
  simp [raycastStep, hh]

/-- Helper: one step replaces the accumulator when the object's first
intersection is strictly closer. -/
theorem raycastStep_cons_lt (hitsOf : Nat → List DescHit) (o : RObj)
    (h : DescHit) (hs : List DescHit) (c : Hit)
    (hh : hitsOf o.objId = h :: hs) (hlt : h.dist < c.dist) :
    raycastStep hitsOf (some c) o = some { objId := o.objId, dist := h.dist } := by
  simp [raycastStep, hh, hlt]

/-- Helper: one step keeps the accumulator when the object's first
intersection is not strictly closer. -/
theorem raycastStep_cons_ge (hitsOf : Nat → List DescHit) (o : RObj)
    (h : DescHit) (hs : List DescHit) (c : Hit)
    (hh : hitsOf o.objId = h :: hs) (hlt : ¬h.dist < c.dist) :
    raycastStep hitsOf (some c) o = some c := by
  simp [raycastStep, hh, hlt]

/-- Helper: the distance of the `reduce` result is a lower bound on the
accumulator's distance and on every intersection distance of every
traversed object (the per-object lists being sorted, their heads are
their minima). -/
theorem raycast_foldl_le (hitsOf : Nat → List DescHit) (objs : List RObj)
    (hsorted : ∀ o ∈ objs,
      List.Sorted (fun a b : DescHit => a.dist ≤ b.dist) (hitsOf o.objId)) :
    ∀ (acc : Option Hit) (r : Hit),
      List.foldl (raycastStep hitsOf) acc objs = some r →
        (∀ c, acc = some c → r.dist ≤ c.dist) ∧
        ∀ o ∈ objs, ∀ d ∈ hitsOf o.objId, r.dist ≤ d.dist := by
  induction objs with
  | nil =>
    intro acc r hfold
    simp at hfold
    subst hfold
    exact ⟨fun c hc => by cases hc; exact le_refl _, by simp⟩
  | cons o t ih =>
    intro acc r hfold
    rw [List.foldl_cons] at hfold
    have hsort_o := hsorted o (List.mem_cons_self o t)
    have hsorted_t : ∀ o' ∈ t,
        List.Sorted (fun a b : DescHit => a.dist ≤ b.dist) (hitsOf o'.objId) :=
      fun o' ho' => hsorted o' (List.mem_cons_of_mem o ho')
    obtain ⟨ih1, ih2⟩ := ih hsorted_t (raycastStep hitsOf acc o) r hfold
    have hstep : ∀ c, acc = some c →
        ∀ c', raycastStep hitsOf acc o = some c' → c'.dist ≤ c.dist := by
      intro c hc c' hc'
      subst hc
      cases hh : hitsOf o.objId with
      | nil =>
        rw [raycastStep_nil hitsOf _ o hh] at hc'
        cases hc'
        exact le_refl _
      | cons h hs =>
        by_cases hlt : h.dist < c.dist
        · rw [raycastStep_cons_lt hitsOf o h hs c hh hlt] at hc'
          cases hc'
          exact le_of_lt hlt
        · rw [raycastStep_cons_ge hitsOf o h hs c hh hlt] at hc'
          cases hc'
          exact le_refl _
    have hstep_some : ∀ c, acc = some c →
        ∃ c', raycastStep hitsOf acc o = some c' := by
      intro c hc
      subst hc
      cases hh : hitsOf o.objId with
      | nil => exact ⟨c, raycastStep_nil hitsOf _ o hh⟩
      | cons h hs =>
        by_cases hlt : h.dist < c.dist
        · exact ⟨_, raycastStep_cons_lt hitsOf o h hs c hh hlt⟩
        · exact ⟨c, raycastStep_cons_ge hitsOf o h hs c hh hlt⟩
    refine ⟨?_, ?_⟩
    · intro c hc
      obtain ⟨c', hc'⟩ := hstep_some c hc
      exact le_trans (ih1 c' hc') (hstep c hc c' hc')
    · intro o' ho' d hd
      rcases List.mem_cons.mp ho' with rfl | ho't
      · -- current object: r.dist is at most the head's distance,
        -- and the head bounds the rest of the sorted list
        cases hh : hitsOf o'.objId with
        | nil => rw [hh] at hd; cases hd
        | cons h hs =>
          have hr_h : r.dist ≤ h.dist := by
            cases hacc : acc with
            | none =>
              rw [hacc] at ih1
              exact ih1 _ (by rw [raycastStep_cons_none hitsOf o' h hs hh])
            | some c =>
              rw [hacc] at ih1
              by_cases hlt : h.dist < c.dist
              · exact ih1 _ (by rw [raycastStep_cons_lt hitsOf o' h hs c hh hlt])
              · exact le_trans
                  (ih1 c (by rw [raycastStep_cons_ge hitsOf o' h hs c hh hlt]))
                  (le_of_not_lt hlt)
          rw [hh] at hd
          rcases List.mem_cons.mp hd with rfl | hd'
          · exact hr_h
          · have hsort' := hsort_o
            rw [hh] at hsort'
            exact le_trans hr_h (List.rel_of_sorted_cons hsort' d hd')
      · exact ih2 o' ho't d hd

/-- Helper: a `some` result of the `reduce` either was already the
accumulator or is realized by some traversed object: that object's id is
recorded as the hit target (the top-level registered object, not the
descendant mesh) and its distance is one of that object's intersection
distances. -/
theorem raycast_foldl_attained (hitsOf : Nat → List DescHit)
    (objs : List RObj) :
    ∀ (acc : Option Hit) (r : Hit),
      List.foldl (raycastStep hitsOf) acc objs = some r →
        acc = some r ∨
          ∃ o ∈ objs, o.objId = r.objId ∧
            ∃ d ∈ hitsOf o.objId, d.dist = r.dist := by
  induction objs with
  | nil =>
    intro acc r hfold
    simp at hfold
    exact Or.inl (by rw [hfold])
  | cons o t ih =>
    intro acc r hfold
    rw [List.foldl_cons] at hfold
    rcases ih (raycastStep hitsOf acc o) r hfold with hacc | ⟨o', ho', hid, hd⟩
    · cases hh : hitsOf o.objId with
      | nil =>
        rw [raycastStep_nil hitsOf acc o hh] at hacc
        exact Or.inl hacc
      | cons h hs =>
        cases hacc' : acc with
        | none =>
          rw [hacc', raycastStep_cons_none hitsOf o h hs hh] at hacc
          cases hacc
          exact Or.inr ⟨o, List.mem_cons_self o t, rfl,
            h, by rw [hh]; exact List.mem_cons_self h hs, rfl⟩
        | some c =>
          rw [hacc'] at hacc
          by_cases hlt : h.dist < c.dist
          · rw [raycastStep_cons_lt hitsOf o h hs c hh hlt] at hacc
            cases hacc
            exact Or.inr ⟨o, List.mem_cons_self o t, rfl,
              h, by rw [hh]; exact List.mem_cons_self h hs, rfl⟩
          · rw [raycastStep_cons_ge hitsOf o h hs c hh hlt] at hacc
            exact Or.inl hacc
    · exact Or.inr ⟨o', List.mem_cons_of_mem o ho', hid, hd⟩

/-- C3: the Hit Test Arbiter postcondition.  With each registered
object's intersection list sorted ascending by distance (the
`intersectObject` contract), `raycast` returns `none` exactly when no
registered object's descendant geometry intersects the ray (not an
error); and a `some` result carries the globally smallest intersection
distance across all registered objects' descendant geometry — so for
two overlapping objects at distances `d1 < d2` it returns the object at
`d1` — with the hit target recorded as the owning top-level registered
object's id. -/
theorem hit_test_arbiter (objs : List RObj) (hitsOf : Nat → List DescHit)
    (hsorted : ∀ o ∈ objs,
      List.Sorted (fun a b : DescHit => a.dist ≤ b.dist) (hitsOf o.objId)) :
    (raycast objs hitsOf = none ↔ ∀ o ∈ objs, hitsOf o.objId = []) ∧
    ∀ r, raycast objs hitsOf = some r →
      (∃ o ∈ objs, o.objId = r.objId ∧ ∃ d ∈ hitsOf o.objId, d.dist = r.dist) ∧
      ∀ o ∈ objs, ∀ d ∈ hitsOf o.objId, r.dist ≤ d.dist := by
  constructor
  · simpa using raycast_foldl_none_iff hitsOf objs none
  · intro r hr
    refine ⟨?_, (raycast_foldl_le hitsOf objs hsorted none r hr).2⟩
    rcases raycast_foldl_attained hitsOf objs none r hr with h | h
    · cases h
    · exact h

/-- Witness for C3: two overlapping objects along the ray at distances
1 (object 2, descendant mesh 21) and 2 (object 1); the arbiter returns
distance 1 with the owning object id 2 — not the mesh id 21 — and that
distance bounds every intersection distance in the registry. -/
theorem hit_test_arbiter_witness :
    raycast wRegistry wOverlapHits = some { objId := 2, dist := 1 } ∧
    (1 : ℚ) ≤ ({ meshId := 11, dist := 2 } : DescHit).dist := by
  refine ⟨by decide, ?_⟩
  exact ((hit_test_arbiter wRegistry wOverlapHits (by decide)).2
    { objId := 2, dist := 1 } (by decide)).2 wButtonA (by simp [wRegistry])
    { meshId := 11, dist := 2 } (by decide)

/-- Helper: dispatching `"idle"` never leaves a button in `hovered` or
`selected`. -/
theorem hs_handle_idle (b : ButtonState) :
    isHoveredOrSelected (handleStateChange b .idle).currentState = false := by
  by_cases hb : b.currentState = .active <;>
    simp [handleStateChange, hb, isHoveredOrSelected]

/-- Helper: a registry entry that ends a tick as a capability-flagged
object in `hovered`/`selected` must have been the arbitration hit. -/
theorem hsFlag_applyTick (intersect : Option Hit) (sel : Bool) (o : RObj)
    (hf : hsFlag (applyTick intersect sel o) = true) :
    ∃ h, intersect = some h ∧ o.objId = h.objId := by
  by_cases hui : o.isUI = true
  · cases intersect with
    | none =>
      exfalso
      have : applyTick none sel o =
          { o with button := handleStateChange o.button .idle } := by
        simp [applyTick, dispatchFor, hui]
      rw [this] at hf
      simp [hsFlag, hs_handle_idle] at hf
    | some h =>
      by_cases hid : o.objId = h.objId
      · exact ⟨h, rfl, hid⟩
      · exfalso
        have : applyTick (some h) sel o =
            { o with button := handleStateChange o.button .idle } := by
          simp [applyTick, dispatchFor, hui, hid]
        rw [this] at hf
        simp [hsFlag, hs_handle_idle] at hf
  · exfalso
    have hui' : o.isUI = false := by simpa using hui
    have : applyTick intersect sel o = o := by
      simp [applyTick, dispatchFor, hui']
    rw [this] at hf
    simp [hsFlag, hui'] at hf

/-- Helper: a capability-flagged entry that is not the arbitration hit
ends the tick in `idle`, except that an entry already in `active` stays
in `active`. -/
theorem applyTick_not_hit (intersect : Option Hit) (sel : Bool) (o : RObj)
    (hui : o.isUI = true)
    (hnot : ∀ h, intersect = some h → o.objId ≠ h.objId) :
    (applyTick intersect sel o).button.currentState = .idle ∨
      (o.button.currentState = .active ∧
        (applyTick intersect sel o).button.currentState = .active) := by
  have hdisp : dispatchFor intersect sel o = some .idle := by
    cases intersect with
    | none => simp [dispatchFor, hui]
    | some h => simp [dispatchFor, hui, hnot h rfl]
  have happ : applyTick intersect sel o =
      { o with button := handleStateChange o.button .idle } := by
    simp [applyTick, hdisp]
  rw [happ]
  by_cases hb : o.button.currentState = .active
  · exact Or.inr ⟨hb, by simp [handleStateChange, hb]⟩
  · exact Or.inl (by simp [handleStateChange, hb])

/-- Helper: with reference-distinct registry entries (modelled as
distinct ids), at most one entry ends the tick as a capability-flagged
object in `hovered`/`selected`. -/
theorem countP_hsFlag_le_one (objs : List RObj) (intersect : Option Hit)
    (sel : Bool) (hnd : (objs.map RObj.objId).Nodup) :
    (updateObjectStates objs intersect sel).countP hsFlag ≤ 1 := by
  induction objs with
  | nil => simp [updateObjectStates]
  | cons o t ih =>
    rw [List.map_cons, List.nodup_cons] at hnd
    obtain ⟨hno, hndt⟩ := hnd
    rw [updateObjectStates, List.map_cons, List.countP_cons]
    by_cases hpo : hsFlag (applyTick intersect sel o) = true
    · obtain ⟨h, hi, hid⟩ := hsFlag_applyTick intersect sel o hpo
      have hz : (t.map (applyTick intersect sel)).countP hsFlag = 0 := by
        rw [List.countP_eq_zero]
        intro x hx
        obtain ⟨o', ho', rfl⟩ := List.mem_map.mp hx
        intro hfx
        obtain ⟨h', hi', hid'⟩ := hsFlag_applyTick intersect sel o' hfx
        rw [hi] at hi'
        cases hi'
        exact hno (hid ▸ hid' ▸ List.mem_map_of_mem RObj.objId ho')
      rw [hz, hpo]
      simp
    · have hz : (if hsFlag (applyTick intersect sel o) then 1 else 0) = 0 := by
        simp [hpo]
      rw [hz]
      have := ih hndt
      rw [updateObjectStates] at this
      omega

/-- Helper: zipping a list with its image under a map pairs each element
with its own image. -/
theorem zip_map_self {α β : Type} (g : α → β) (l : List α) :
    l.zip (l.map g) = l.map fun a => (a, g a) := by
  induction l with
  | nil => rfl
  | cons a t ih => simp [ih]

/-- C1: nearest-hit exclusivity.  For any tick (any arbitration result
and engagement flag): among all registered entries, at most one ends the
tick as a capability-flagged object in `hovered` or `selected`; and
every capability-flagged entry other than the arbitration hit is set to
`idle` — unless it holds the `active` override, in which case it stays
`active`.  Registered objects are reference-distinct, modelled as the
id-nodup hypothesis. -/
theorem nearest_hit_exclusivity (objs : List RObj) (intersect : Option Hit)
    (sel : Bool) (hnd : (objs.map RObj.objId).Nodup) :
    (updateObjectStates objs intersect sel).countP hsFlag ≤ 1 ∧
    ∀ q ∈ objs.zip (updateObjectStates objs intersect sel),
      q.1.isUI = true →
      (∀ h, intersect = some h → q.1.objId ≠ h.objId) →
      (q.2.button.currentState = .idle ∨
        (q.1.button.currentState = .active ∧
          q.2.button.currentState = .active)) := by
  refine ⟨countP_hsFlag_le_one objs intersect sel hnd, ?_⟩
  have hz : objs.zip (updateObjectStates objs intersect sel)
      = objs.map fun o => (o, applyTick intersect sel o) := by
    rw [updateObjectStates, zip_map_self]
  intro q hq hui hnot
  rw [hz] at hq
  obtain ⟨o, ho, rfl⟩ := List.mem_map.mp hq
  exact applyTick_not_hit intersect sel o hui hnot

/-- Witness for C1: a three-entry registry with distinct ids (two
capability-flagged buttons, one non-UI object), the arbitration hit on
object 1, engagement flag down. -/
theorem nearest_hit_exclusivity_witness :
    (wRegistry.map RObj.objId).Nodup ∧
    (updateObjectStates wRegistry (some { objId := 1, dist := 5 })
        false).countP hsFlag ≤ 1 :=
  ⟨by decide,
    (nearest_hit_exclusivity wRegistry (some { objId := 1, dist := 5 })
      false (by decide)).1⟩

